import Mathlib

/-!
Shallow embedding of the BLE HID GATT daemon
(`scripts/service/bin/bt_hid_ble_daemon.py`): the character→usage mapper,
the keyboard report builder, the shared notify-subscription state, the HID
service's characteristics (Protocol Mode, HID Control Point, Input Report,
Boot Input) with their WriteValue/StartNotify/StopNotify/notify behaviour,
the keystroke queue drain loop, the registration retry controller, and the
advertisement object.  Mutable Python objects become explicit state records;
D-Bus method calls become state-transforming functions returning an optional
error; `PropertiesChanged` emissions are collected into lists of reports.
-/

namespace BtHidBle

/-- `MOD_LSHIFT` constant from the source. -/
def MOD_LSHIFT : Nat := 0x02

/-- Python `ch in PUNCT` lookup: space, newline, carriage return, tab,
hyphen, underscore. -/
def punctLookup (ch : Char) : Option (Nat × Nat) :=
  if ch = ' ' then some (0x2C, 0)
  else if ch = '\n' then some (0x28, 0)
  else if ch = '\r' then some (0x28, 0)
  else if ch = '\t' then some (0x2B, 0)
  else if ch = '-' then some (0x2D, 0)
  else if ch = '_' then some (0x2D, MOD_LSHIFT)
  else none

/-- `DIGIT_USAGES[str(i)] = 0x1E + (0 if i == 1 else i - 1 if i > 0 else 9)`. -/
def digitUsage (i : Nat) : Nat :=
  0x1E + (if i = 1 then 0 else if i > 0 then i - 1 else 9)

/-- Python `ch in SPECIAL_DK` lookup: the Danish letters å/Å, æ/Æ, ø/Ø. -/
def specialDKLookup (ch : Char) : Option (Nat × Nat) :=
  if ch = 'å' then some (0x2F, 0)
  else if ch = 'Å' then some (0x2F, MOD_LSHIFT)
  else if ch = 'æ' then some (0x33, 0)
  else if ch = 'Æ' then some (0x33, MOD_LSHIFT)
  else if ch = 'ø' then some (0x34, 0)
  else if ch = 'Ø' then some (0x34, MOD_LSHIFT)
  else none

def isAsciiLowerLetter (ch : Char) : Bool := 'a' ≤ ch && ch ≤ 'z'

def isAsciiUpperLetter (ch : Char) : Bool := 'A' ≤ ch && ch ≤ 'Z'

/-- `map_char(ch)`: character → (usage code, modifier mask); unknown
characters map to usage 0.  The final branch embeds Python's
`ch.lower() in LETTER_USAGES and ch.isupper()`: besides ASCII A–Z this is
also satisfied by U+212A (Kelvin sign), whose Unicode lowercase is `k`. -/
def map_char (ch : Char) : Nat × Nat :=
  match punctLookup ch with
  | some p => p
  | none =>
    if ch.isDigit then (digitUsage (ch.toNat - '0'.toNat), 0)
    else match specialDKLookup ch with
    | some p => p
    | none =>
      if isAsciiLowerLetter ch then (0x04 + (ch.toNat - 'a'.toNat), 0)
      else if isAsciiUpperLetter ch then
        (0x04 + (ch.toNat - 'A'.toNat), MOD_LSHIFT)
      else if ch = Char.ofNat 0x212A then (0x0E, MOD_LSHIFT)
      else (0, 0)

/-- `build_kbd_report(mods, keycode)`: the fixed 8-byte keyboard report
`bytes([mods & 0xFF, 0x00, keycode & 0xFF, 0, 0, 0, 0, 0])`. -/
def build_kbd_report (mods keycode : Nat) : List Nat :=
  [mods % 256, 0, keycode % 256, 0, 0, 0, 0, 0]

/-! ## NotifyState: the shared subscriber counter and wake event -/

/-- `NotifyState`: thread-shared subscriber counter plus wake event.  The
Python counter is an `int`; we keep it as `Int` so "never negative" is a
real statement. -/
structure NotifyState where
  count : Int
  event : Bool
  deriving Repr, DecidableEq

/-- `NotifyState.__init__`: count 0, event cleared. -/
def nsInit : NotifyState := { count := 0, event := false }

/-- `NotifyState.acquire`: `count += 1; event.set()`. -/
def NotifyState.acquire (s : NotifyState) : NotifyState :=
  { count := s.count + 1, event := true }

/-- `NotifyState.release`: `count = max(0, count - 1); if count == 0:
event.clear()`. -/
def NotifyState.release (s : NotifyState) : NotifyState :=
  let c := max 0 (s.count - 1)
  { count := c, event := if c = 0 then false else s.event }

/-- One StartNotify (acquire) or StopNotify (release) call on a
report-bearing characteristic; Report-Input and Boot-Input share the one
`NotifyState`, so both map onto the same two operations. -/
inductive NSOp where
  | acquire
  | release
  deriving Repr, DecidableEq

def applyOp (s : NotifyState) (op : NSOp) : NotifyState :=
  match op with
  | .acquire => s.acquire
  | .release => s.release

/-- Run a finite call sequence against a `NotifyState`. -/
def applyOps (ops : List NSOp) (s : NotifyState) : NotifyState :=
  ops.foldl applyOp s

def numAcquires (ops : List NSOp) : Nat :=
  (ops.filter (fun op => op = NSOp.acquire)).length

def numReleases (ops : List NSOp) : Nat :=
  (ops.filter (fun op => op = NSOp.release)).length

/-! ## The HID service state and characteristic methods -/

/-- A D-Bus error raised by a characteristic method. -/
inductive DbusErr where
  | invalidArgs
  | notPermitted
  deriving Repr, DecidableEq

/-- The mutable part of a report-bearing characteristic: its `notifying`
flag and its `_value` bytes. -/
structure Chrc where
  notifying : Bool
  value : List Nat
  deriving Repr, DecidableEq

/-- The mutable state of the HID service relevant to dispatch: the protocol
mode (`ProtocolModeCharacteristic.mode` and `_value`), the control point's
`suspended` flag, and the Report-Input / Boot-Input characteristics. -/
structure HidState where
  mode : Nat
  modeValue : List Nat
  suspended : Bool
  input : Chrc
  boot : Chrc
  deriving Repr, DecidableEq

/-- State after construction: mode defaults to 0x01 (Report), suspended
false, both input characteristics not notifying with the neutral report as
initial value. -/
def hidInit : HidState :=
  { mode := 0x01
    modeValue := [0x01]
    suspended := false
    input := { notifying := false, value := build_kbd_report 0 0 }
    boot := { notifying := false, value := build_kbd_report 0 0 } }

/-- `ProtocolModeCharacteristic.WriteValue`: reject any payload that is not
one byte in {0x00, 0x01}; on success store the mode.  Failure leaves the
state untouched. -/
def pmWriteValue (value : List Nat) (s : HidState) : Option DbusErr × HidState :=
  match value with
  | [b] =>
    if b = 0x00 ∨ b = 0x01 then (none, { s with mode := b, modeValue := [b] })
    else (some .invalidArgs, s)
  | _ => (some .invalidArgs, s)

/-- `HidControlPointCharacteristic.WriteValue`: reject any payload whose
length is not 1; otherwise record `suspended = (value[0] == 0x00)`. -/
def hcpWriteValue (value : List Nat) (s : HidState) : Option DbusErr × HidState :=
  match value with
  | [b] => (none, { s with suspended := b = 0x00 })
  | _ => (some .invalidArgs, s)

/-- `notify_report(report_bytes)` on an input characteristic: if not
notifying return False without touching the value; else store the bytes,
emit one `PropertiesChanged`, and return True.  The third component lists
the emitted notification payloads. -/
def notifyReport (c : Chrc) (report : List Nat) : Bool × Chrc × List (List Nat) :=
  if c.notifying then (true, { c with value := report }, [report])
  else (false, c, [])

/-- `HidService.notify_key_report(report)`: in Boot mode (0x00) try
Boot-Input first and fall back to Report-Input; otherwise the reverse.
Python's `or` short-circuits, so the fallback runs only when the first
attempt returned False (which leaves the first characteristic untouched). -/
def notify_key_report (s : HidState) (report : List Nat) :
    Bool × HidState × List (List Nat) :=
  if s.mode = 0x00 then
    let (ok, boot1, em1) := notifyReport s.boot report
    if ok then (true, { s with boot := boot1 }, em1)
    else
      let (ok2, input1, em2) := notifyReport s.input report
      (ok2, { s with input := input1 }, em2)
  else
    let (ok, input1, em1) := notifyReport s.input report
    if ok then (true, { s with input := input1 }, em1)
    else
      let (ok2, boot1, em2) := notifyReport s.boot report
      (ok2, { s with boot := boot1 }, em2)

/-! ## The keystroke queue drain loop -/

/-- Result of one `send_next_character` call: whether it returned True, the
queue afterwards, the HID state afterwards, and the notifications emitted. -/
structure StepResult where
  progressed : Bool
  queue : List Char
  hid : HidState
  emitted : List (List Nat)
  deriving Repr, DecidableEq

/-- `send_next_character(queue, hid, notify_state)`: return False when the
queue is empty or the wake event is clear; pop-and-drop an unmapped head
(usage 0); else deliver the press report (abandon without popping when no
characteristic accepts it), then the release report, then pop. -/
def send_next_character (q : List Char) (hid : HidState) (ns : NotifyState) :
    StepResult :=
  match q with
  | [] => { progressed := false, queue := [], hid := hid, emitted := [] }
  | ch :: rest =>
    if ns.event = false then
      { progressed := false, queue := ch :: rest, hid := hid, emitted := [] }
    else
      let keycode := (map_char ch).1
      let mods := (map_char ch).2
      if keycode = 0 then
        { progressed := true, queue := rest, hid := hid, emitted := [] }
      else
        let press := build_kbd_report mods keycode
        let release := build_kbd_report 0 0
        let r1 := notify_key_report hid press
        if r1.1 = false then
          { progressed := false, queue := ch :: rest, hid := r1.2.1,
            emitted := r1.2.2 }
        else
          let r2 := notify_key_report r1.2.1 release
          { progressed := true, queue := rest, hid := r2.2.1,
            emitted := r1.2.2 ++ r2.2.2 }

/-- `drain_queue`: `while queue: if not send_next_character(...): break`.
Each True step pops exactly one character, so fuel `q.length` reproduces
the unbounded Python loop; the claims quantify over the fuel. -/
def drain_queue (fuel : Nat) (q : List Char) (hid : HidState) (ns : NotifyState) :
    List Char × HidState × List (List Nat) :=
  match fuel with
  | 0 => (q, hid, [])
  | fuel' + 1 =>
    match q with
    | [] => (q, hid, [])
    | _ =>
      let r := send_next_character q hid ns
      if r.progressed then
        let d := drain_queue fuel' r.queue r.hid ns
        (d.1, d.2.1, r.emitted ++ d.2.2)
      else (r.queue, r.hid, r.emitted)

/-- The inner polling loop of `fifo_worker`: `while queue: if event set
then drain_queue else sleep(0.05)`, iterated a bounded number of times
(each iteration is one poll tick or one drain pass). -/
def workerPoll (iters : Nat) (q : List Char) (hid : HidState) (ns : NotifyState) :
    List Char × HidState :=
  match iters with
  | 0 => (q, hid)
  | n + 1 =>
    match q with
    | [] => (q, hid)
    | _ =>
      if ns.event then
        let d := drain_queue q.length q hid ns
        workerPoll n d.1 d.2.1 ns
      else workerPoll n q hid ns

/-! ## Registration retry controller -/

/-- A D-Bus exception as seen by the retry logic: its error name and its
string rendering. -/
structure RegError where
  name : String
  msg : String
  deriving Repr, DecidableEq

/-- Substring test on character lists (Python's `token in name`). -/
def containsSub (pat s : List Char) : Bool :=
  match s with
  | [] => pat.isEmpty
  | _ :: t => pat.isPrefixOf s || containsSub pat t

def retryTokens : List String :=
  ["NotReady", "InProgress", "Failed", "NoReply", "TimedOut"]

/-- `_retryable_dbus_error(exc)`: any of the five tokens occurs in the
error name or in the message. -/
def retryable_dbus_error (e : RegError) : Bool :=
  retryTokens.any fun t =>
    containsSub t.data e.name.data || containsSub t.data e.msg.data

inductive RegStatus where
  | running
  | exited (code : Nat)
  deriving Repr, DecidableEq

/-- Registration controller state: the failure counter `state["attempt"]`,
the number of `RegisterApplication`/`RegisterAdvertisement` calls issued so
far, and whether the process is still alive. -/
structure RegState where
  attempt : Nat
  calls : Nat
  status : RegStatus
  deriving Repr, DecidableEq

def MAX_ATTEMPTS : Nat := 60

/-- State once `GLib.idle_add(do_register_gatt)` has fired: no failures
yet, one registration call issued, process running. -/
def regInit : RegState := { attempt := 0, calls := 1, status := .running }

/-- `schedule_retry(source, exc)`: bump the failure counter; a
non-retryable error or an exhausted budget calls `fail_and_exit`
(`os._exit(1)`); otherwise schedule one more registration call. -/
def schedule_retry (s : RegState) (e : RegError) : RegState :=
  match s.status with
  | .exited _ => s
  | .running =>
    let a := s.attempt + 1
    if retryable_dbus_error e = false then
      { s with attempt := a, status := .exited 1 }
    else if a ≥ MAX_ATTEMPTS then
      { s with attempt := a, status := .exited 1 }
    else { s with attempt := a, calls := s.calls + 1 }

/-- Controller state after a sequence of registration failures. -/
def runErrors (errs : List RegError) : RegState :=
  errs.foldl schedule_retry regInit

/-! ## Advertisement -/

/-- The property map `Advertisement.get_properties` exposes under the
LEAdvertisement1 interface. -/
structure AdvProperties where
  typ : String
  serviceUUIDs : List String
  localName : String
  appearance : Nat
  deriving Repr, DecidableEq

def UUID_HID_SERVICE : String := "1812"

def APPEARANCE_KEYBOARD : Nat := 0x03C1

/-- `Advertisement.get_properties` for the advertisement built in `main`:
type "peripheral", the HID service UUID, the configured local name passed
through, and the keyboard appearance code. -/
def advGetProperties (local_name : String) : AdvProperties :=
  { typ := "peripheral"
    serviceUUIDs := [UUID_HID_SERVICE]
    localName := local_name
    appearance := APPEARANCE_KEYBOARD }

/-- An observable side effect of a daemon callback. -/
inductive Effect where
  | logLine (msg : String)
  | quitMainLoop
  | exitProcess (code : Nat)
  deriving Repr, DecidableEq

/-- `Advertisement.Release`: the full body is one `log_info(...,
always=True)` call; the method then returns. -/
def advertisementRelease : List Effect :=
  [.logLine "[ble] Advertisement released"]

/-- `fail_and_exit(reason)` for comparison: log, quit the main loop, and
`os._exit(1)`. -/
def fail_and_exit (reason : String) : List Effect :=
  [.logLine ("[ble] Registration failed: " ++ reason), .quitMainLoop,
    .exitProcess 1]

/-- Whether a list of effects terminates the process. -/
def terminatesProcess (effs : List Effect) : Bool :=
  effs.any fun e =>
    match e with
    | .exitProcess _ => true
    | _ => false

/-! ## Theorems -/

/-- Invariant of `NotifyState` maintained by every acquire/release: the
count stays nonnegative and the wake event is set exactly when the count
is positive. -/
lemma applyOps_inv (ops : List NSOp) (s : NotifyState)
    (h0 : 0 ≤ s.count) (h1 : s.event = true ↔ 0 < s.count) :
    0 ≤ (applyOps ops s).count ∧
      ((applyOps ops s).event = true ↔ 0 < (applyOps ops s).count) := by
  induction ops generalizing s with
  | nil => exact ⟨h0, h1⟩
  | cons op rest ih =>
    have hstep : 0 ≤ (applyOp s op).count ∧
        ((applyOp s op).event = true ↔ 0 < (applyOp s op).count) := by
      cases op with
      | acquire =>
        simp only [applyOp, NotifyState.acquire]
        constructor
        · omega
        · simp only [true_iff]
          omega
      | release =>
        simp only [applyOp, NotifyState.release]
        by_cases hz : max 0 (s.count - 1) = 0
        · simp only [hz, if_pos rfl]
          constructor
          · omega
          · simp
        · simp only [hz, if_neg hz]
          have hpos : 0 < max 0 (s.count - 1) := by omega
          have hc : 1 < s.count := by omega
          have hev : s.event = true := h1.mpr (by omega)
          constructor
          · omega
          · simp [hev, hpos]
    have : applyOps (op :: rest) s = applyOps rest (applyOp s op) := by
      simp [applyOps, List.foldl]
    rw [this]
    exact ih (applyOp s op) hstep.1 hstep.2

/-- C10: from the initial `NotifyState` (count 0, event cleared), after
every finite sequence of acquire/release operations the wake event is set
iff the subscriber count is positive. -/
theorem c10_event_iff_positive_count (ops : List NSOp) :
    (applyOps ops nsInit).event = true ↔ 0 < (applyOps ops nsInit).count :=
  (applyOps_inv ops nsInit (by simp [nsInit]) (by simp [nsInit])).2

/-- C10 witness: after a single acquire the event is set and the count is
positive. -/
theorem c10_witness : 0 < (applyOps [NSOp.acquire] nsInit).count :=
  (c10_event_iff_positive_count [NSOp.acquire]).mp (by decide)

/-- C2 counterexample: for the call sequence StopNotify-then-StartNotify
starting at count 0, the final counter is 1, but #Start − #Stop clamped at
0 is 0 — the claim's formula fails. -/
theorem c2_counterexample :
    ¬ ((applyOps [NSOp.release, NSOp.acquire] nsInit).count =
        max 0 ((numAcquires [NSOp.release, NSOp.acquire] : Int) -
          (numReleases [NSOp.release, NSOp.acquire] : Int))) := by
  decide

/-- When no prefix of the call sequence has more releases than acquires,
the per-step floor never fires and the final counter is exactly
#acquires − #releases. -/
lemma applyOps_count_of_prefix_cond (ops : List NSOp)
    (h : ∀ pre, pre <+: ops → numReleases pre ≤ numAcquires pre) :
    (applyOps ops nsInit).count =
      (numAcquires ops : Int) - (numReleases ops : Int) := by
  induction ops using List.reverseRecOn with
  | nil => simp [applyOps, nsInit, numAcquires, numReleases]
  | append_singleton ops op ih =>
    have hpre : ∀ pre, pre <+: ops → numReleases pre ≤ numAcquires pre := by
      intro pre hp
      exact h pre (hp.trans (ops.prefix_append [op]))
    have hcount := ih hpre
    have happ : applyOps (ops ++ [op]) nsInit = applyOp (applyOps ops nsInit) op := by
      simp [applyOps, List.foldl_append]
    rw [happ]
    cases op with
    | acquire =>
      have hA : numAcquires (ops ++ [NSOp.acquire]) = numAcquires ops + 1 := by
        simp [numAcquires, List.filter_append]
      have hR : numReleases (ops ++ [NSOp.acquire]) = numReleases ops := by
        simp [numReleases, List.filter_append]
      simp only [applyOp, NotifyState.acquire, hA, hR]
      push_cast
      omega
    | release =>
      have hfull := h (ops ++ [NSOp.release]) List.prefix_rfl
      have hA : numAcquires (ops ++ [NSOp.release]) = numAcquires ops := by
        simp [numAcquires, List.filter_append]
      have hR : numReleases (ops ++ [NSOp.release]) = numReleases ops + 1 := by
        simp [numReleases, List.filter_append]
      rw [hA, hR] at hfull ⊢
      simp only [applyOp, NotifyState.release]
      rw [hcount]
      push_cast
      omega

/-- C2 amended: the subscriber counter is never negative after any finite
sequence of StartNotify/StopNotify calls; each StartNotify adds one and
each StopNotify subtracts one floored at 0; whenever no prefix of the
sequence has more StopNotify than StartNotify calls, the final counter
equals #StartNotify − #StopNotify. -/
theorem c2_amended_counter (ops : List NSOp) :
    0 ≤ (applyOps ops nsInit).count ∧
      ((∀ pre, pre <+: ops → numReleases pre ≤ numAcquires pre) →
        (applyOps ops nsInit).count =
          (numAcquires ops : Int) - (numReleases ops : Int)) :=
  ⟨(applyOps_inv ops nsInit (by simp [nsInit]) (by simp [nsInit])).1,
    fun h => applyOps_count_of_prefix_cond ops h⟩

/-- C2 witness: for Start, Start, Stop the counter is nonnegative and
equals 2 − 1. -/
theorem c2_witness :
    0 ≤ (applyOps [NSOp.acquire, NSOp.acquire, NSOp.release] nsInit).count ∧
      (applyOps [NSOp.acquire, NSOp.acquire, NSOp.release] nsInit).count =
        (numAcquires [NSOp.acquire, NSOp.acquire, NSOp.release] : Int) -
          (numReleases [NSOp.acquire, NSOp.acquire, NSOp.release] : Int) := by
  refine ⟨(c2_amended_counter _).1, (c2_amended_counter _).2 ?_⟩
  intro pre hp
  have hmem : pre ∈ ([NSOp.acquire, NSOp.acquire, NSOp.release]).inits :=
    (List.mem_inits pre _).mpr hp
  fin_cases hmem <;> decide

/-- C1 counterexample: the body of `Advertisement.Release` emits no
process-terminating effect — the host revoking the advertisement does not
terminate the daemon. -/
theorem c1_counterexample : terminatesProcess advertisementRelease = false := by
  decide

/-- C1 amended: `Release()` only logs the revocation and returns; the
process is not terminated (unlike `fail_and_exit`, which does exit). -/
theorem c1_amended_release_logs_only :
    advertisementRelease = [Effect.logLine "[ble] Advertisement released"] ∧
      terminatesProcess advertisementRelease = false ∧
      terminatesProcess (fail_and_exit "r") = true :=
  ⟨rfl, rfl, rfl⟩

/-- C9 counterexample: a 20-character configured device name is exposed in
the advertisement property map verbatim, not shortened to ~12 characters. -/
theorem c9_counterexample :
    (advGetProperties "ABCDEFGHIJKLMNOPQRST").localName =
        "ABCDEFGHIJKLMNOPQRST" ∧
      "ABCDEFGHIJKLMNOPQRST".length = 20 := by
  exact ⟨rfl, rfl⟩

/-- C9 amended: the advertisement exposes the configured local name
unmodified, whatever its length; no truncation is performed anywhere. -/
theorem c9_amended_no_truncation (name : String) :
    (advGetProperties name).localName = name := rfl

/-- C3: a Protocol Mode write succeeds exactly on the single-byte payloads
0x00 and 0x01; a successful write of byte b stores mode b (and the value
bytes [b]); a failed write leaves the whole state unchanged; the default
mode before any successful write is Report (0x01). -/
theorem c3_protocol_mode_write (v : List Nat) (s : HidState) :
    ((pmWriteValue v s).1 = none ↔ v = [0x00] ∨ v = [0x01]) ∧
      (∀ b, v = [b] → b = 0x00 ∨ b = 0x01 →
        (pmWriteValue v s).2.mode = b ∧ (pmWriteValue v s).2.modeValue = [b]) ∧
      ((pmWriteValue v s).1 ≠ none → (pmWriteValue v s).2 = s) ∧
      hidInit.mode = 0x01 := by
  refine ⟨?_, ?_, ?_, rfl⟩
  · match v with
    | [] => simp [pmWriteValue]
    | [b] =>
      by_cases hb : b = 0x00 ∨ b = 0x01 <;> simp [pmWriteValue, hb]
    | _ :: _ :: _ => simp [pmWriteValue]
  · intro b hv hb
    subst hv
    simp [pmWriteValue, hb]
  · match v with
    | [] => simp [pmWriteValue]
    | [b] =>
      by_cases hb : b = 0x00 ∨ b = 0x01
      · simp [pmWriteValue, hb]
      · simp [pmWriteValue, hb]
    | _ :: _ :: _ => simp [pmWriteValue]

/-- C3 witness: writing [0x00] succeeds and stores Boot mode. -/
theorem c3_witness :
    (pmWriteValue [0x00] hidInit).2.mode = 0x00 ∧
      (pmWriteValue [0x02] hidInit).2 = hidInit :=
  ⟨((c3_protocol_mode_write [0x00] hidInit).2.1 0x00 rfl (Or.inl rfl)).1,
    (c3_protocol_mode_write [0x02] hidInit).2.2.1 (by decide)⟩

/-- `notify_key_report` written out as nested conditionals: Boot mode
tries Boot-Input then Report-Input, otherwise Report-Input then
Boot-Input; a failed first attempt leaves that characteristic untouched. -/
lemma notify_key_report_unfold (s : HidState) (r : List Nat) :
    notify_key_report s r =
      (if s.mode = 0x00 then
        if s.boot.notifying = true then
          (true, { s with boot := { s.boot with value := r } }, [r])
        else if s.input.notifying = true then
          (true, { s with input := { s.input with value := r } }, [r])
        else (false, s, [])
      else
        if s.input.notifying = true then
          (true, { s with input := { s.input with value := r } }, [r])
        else if s.boot.notifying = true then
          (true, { s with boot := { s.boot with value := r } }, [r])
        else (false, s, [])) := by
  obtain ⟨mode, mv, sus, inp, boot⟩ := s
  by_cases h1 : mode = 0x00 <;>
    by_cases h2 : boot.notifying <;>
      by_cases h3 : inp.notifying <;>
        simp [notify_key_report, notifyReport, h1, h2, h3]

/-- C4: report dispatch.  In Boot mode (0x00) Boot-Input is tried first
and Report-Input only if Boot-Input is not notifying; in Report mode the
reverse; the returned flag says whether any delivery occurred; a delivery
stores the report only in the chosen characteristic and changes nothing
else; with no subscriber on either path nothing changes. -/
theorem c4_notify_key_report_dispatch (s : HidState) (r : List Nat) :
    (s.mode = 0x00 → s.boot.notifying = true →
      notify_key_report s r =
        (true, { s with boot := { s.boot with value := r } }, [r])) ∧
    (s.mode = 0x00 → s.boot.notifying = false → s.input.notifying = true →
      notify_key_report s r =
        (true, { s with input := { s.input with value := r } }, [r])) ∧
    (s.mode = 0x00 → s.boot.notifying = false → s.input.notifying = false →
      notify_key_report s r = (false, s, [])) ∧
    (s.mode ≠ 0x00 → s.input.notifying = true →
      notify_key_report s r =
        (true, { s with input := { s.input with value := r } }, [r])) ∧
    (s.mode ≠ 0x00 → s.input.notifying = false → s.boot.notifying = true →
      notify_key_report s r =
        (true, { s with boot := { s.boot with value := r } }, [r])) ∧
    (s.mode ≠ 0x00 → s.input.notifying = false → s.boot.notifying = false →
      notify_key_report s r = (false, s, [])) := by
  refine ⟨?_, ?_, ?_, ?_, ?_, ?_⟩ <;>
    intro h1 h2 <;> rw [notify_key_report_unfold] <;>
      first
        | (intro h3; simp [h1, h2, h3])
        | simp [h1, h2]

/-- C4 witness: in Boot mode with only Boot-Input subscribed, the report
is delivered there and only its value changes. -/
theorem c4_witness :
    notify_key_report
        { hidInit with
          mode := 0x00
          boot := { notifying := true, value := build_kbd_report 0 0 } }
        [1, 2] =
      (true,
        { hidInit with
          mode := 0x00
          boot := { notifying := true, value := [1, 2] } },
        [[1, 2]]) :=
  (c4_notify_key_report_dispatch _ [1, 2]).1 rfl rfl

/-- C6: with one Report-Input subscriber throughout and the queue holding
'H', 'i', '!', the drain loop empties the queue and emits exactly four
reports in order — shifted press of H (usage 0x0B), neutral release,
press of i (usage 0x0C), neutral release — while '!' (unmapped, usage 0)
is dropped without any emission. -/
theorem c6_drain_hi_bang :
    drain_queue 3 ['H', 'i', '!']
        { hidInit with
          input := { notifying := true, value := build_kbd_report 0 0 } }
        { count := 1, event := true } =
      ([],
        { hidInit with
          input := { notifying := true, value := build_kbd_report 0 0 } },
        [build_kbd_report MOD_LSHIFT 0x0B, build_kbd_report 0 0,
          build_kbd_report 0 0x0C, build_kbd_report 0 0]) := by
  decide

/-- With the wake event clear, `send_next_character` makes no progress and
touches nothing. -/
lemma send_next_character_event_false (q : List Char) (hid : HidState)
    (ns : NotifyState) (h : ns.event = false) :
    send_next_character q hid ns =
      { progressed := false, queue := q, hid := hid, emitted := [] } := by
  cases q with
  | nil => rfl
  | cons ch rest => simp [send_next_character, h]

/-- With the wake event clear, a drain pass of any fuel returns the queue
and state unchanged and emits nothing. -/
lemma drain_queue_event_false (fuel : Nat) (q : List Char) (hid : HidState)
    (ns : NotifyState) (h : ns.event = false) :
    drain_queue fuel q hid ns = (q, hid, []) := by
  cases fuel with
  | zero => rfl
  | succ n =>
    cases q with
    | nil => rfl
    | cons ch rest =>
      simp [drain_queue, send_next_character_event_false _ _ _ h]

/-- With the wake event clear, any number of worker poll iterations leaves
the queue and the HID state unchanged. -/
lemma workerPoll_event_false (iters : Nat) (q : List Char) (hid : HidState)
    (ns : NotifyState) (h : ns.event = false) :
    workerPoll iters q hid ns = (q, hid) := by
  induction iters generalizing q hid with
  | zero => rfl
  | succ n ih =>
    cases q with
    | nil => rfl
    | cons ch rest => simp [workerPoll, h, ih]

/-- C7: in every state reachable from the initial `NotifyState` in which
the subscriber count is 0, a drain pass of any fuel and any number of
worker poll iterations leave the pending queue (and the HID state)
unchanged and emit nothing. -/
theorem c7_queue_frozen_at_zero (ops : List NSOp) (q : List Char)
    (hid : HidState) (fuel iters : Nat)
    (hzero : (applyOps ops nsInit).count = 0) :
    drain_queue fuel q hid (applyOps ops nsInit) = (q, hid, []) ∧
      workerPoll iters q hid (applyOps ops nsInit) = (q, hid) := by
  have hinv := (applyOps_inv ops nsInit (by simp [nsInit]) (by simp [nsInit])).2
  have hev : (applyOps ops nsInit).event = false := by
    rcases Bool.eq_false_or_eq_true (applyOps ops nsInit).event with hb | hb
    · exact absurd (hinv.mp hb) (by rw [hzero]; omega)
    · exact hb
  exact ⟨drain_queue_event_false _ _ _ _ hev, workerPoll_event_false _ _ _ _ hev⟩

/-- C7 witness: after acquire-then-release the count is back to 0 and a
queued 'a' survives both a drain pass and five poll iterations. -/
theorem c7_witness :
    drain_queue 5 ['a'] hidInit (applyOps [NSOp.acquire, NSOp.release] nsInit) =
        (['a'], hidInit, []) ∧
      workerPoll 5 ['a'] hidInit (applyOps [NSOp.acquire, NSOp.release] nsInit) =
        (['a'], hidInit) :=
  c7_queue_frozen_at_zero [NSOp.acquire, NSOp.release] ['a'] hidInit 5 5
    (by decide)

/-- While every error is retryable and the failure counter stays below the
budget, each failure keeps the controller running, bumps the failure
counter, and issues one more registration call. -/
lemma foldl_retry_running (errs : List RegError) (s : RegState)
    (hs : s.status = .running)
    (hall : ∀ e ∈ errs, retryable_dbus_error e = true)
    (hlt : s.attempt + errs.length < MAX_ATTEMPTS) :
    (errs.foldl schedule_retry s).status = .running ∧
      (errs.foldl schedule_retry s).attempt = s.attempt + errs.length ∧
      (errs.foldl schedule_retry s).calls = s.calls + errs.length := by
  induction errs generalizing s with
  | nil => exact ⟨hs, by simp, by simp⟩
  | cons e rest ih =>
    have he : retryable_dbus_error e = true := hall e (by simp)
    have hstep : schedule_retry s e =
        { s with attempt := s.attempt + 1, calls := s.calls + 1 } := by
      simp only [schedule_retry, hs, he]
      rw [if_neg (by simp), if_neg (by simp at hlt ⊢; omega)]
    rw [List.foldl_cons, hstep]
    have hrest := ih { s with attempt := s.attempt + 1, calls := s.calls + 1 }
      hs (fun e' he' => hall e' (by simp [he']))
      (by simp at hlt ⊢; omega)
    refine ⟨hrest.1, ?_, ?_⟩
    · rw [hrest.2.1]; simp; omega
    · rw [hrest.2.2]; simp; omega

/-- On the failure that exhausts the budget the controller exits with
status 1. -/
lemma foldl_retry_exhaust (errs : List RegError)
    (hall : ∀ e ∈ errs, retryable_dbus_error e = true)
    (hlen : errs.length = MAX_ATTEMPTS) :
    (runErrors errs).status = .exited 1 := by
  have hne : errs ≠ [] := by
    intro h
    rw [h] at hlen
    simp [MAX_ATTEMPTS] at hlen
  obtain ⟨l, e, rfl⟩ : ∃ l e, errs = l ++ [e] :=
    ⟨errs.dropLast, errs.getLast hne, (List.dropLast_append_getLast hne).symm⟩
  rw [runErrors, List.foldl_append]
  have hlen' : l.length + 1 = MAX_ATTEMPTS := by simpa using hlen
  have hl := foldl_retry_running l regInit rfl
    (fun e' he' => hall e' (by simp [he']))
    (by simp [regInit]; omega)
  have he : retryable_dbus_error e = true := hall e (by simp)
  have hatt : (l.foldl schedule_retry regInit).attempt = l.length := by
    rw [hl.2.1]; simp [regInit]
  simp only [List.foldl_cons, List.foldl_nil, schedule_retry, hl.1, he, hatt]
  rw [if_neg (by simp), if_pos (by omega)]

/-- C5: starting from the first issued registration call, as long as every
failure is retryable and fewer than 60 failures have occurred, the
controller stays non-terminal and the number of registration calls issued
equals the number of failures plus one; the 60th retryable failure, and
the first non-retryable failure, terminate the process with status 1. -/
theorem c5_registration_retry (errs : List RegError) :
    ((∀ e ∈ errs, retryable_dbus_error e = true) → errs.length < MAX_ATTEMPTS →
      (runErrors errs).status = .running ∧
        (runErrors errs).calls = errs.length + 1 ∧
        (runErrors errs).attempt = errs.length) ∧
      ((∀ e ∈ errs, retryable_dbus_error e = true) → errs.length = MAX_ATTEMPTS →
        (runErrors errs).status = .exited 1) ∧
      (∀ e, (∀ e' ∈ errs, retryable_dbus_error e' = true) →
        errs.length < MAX_ATTEMPTS → retryable_dbus_error e = false →
        (runErrors (errs ++ [e])).status = .exited 1) := by
  refine ⟨?_, fun hall hlen => foldl_retry_exhaust errs hall hlen, ?_⟩
  · intro hall hlt
    have h := foldl_retry_running errs regInit rfl hall (by simp [regInit]; omega)
    exact ⟨h.1, by rw [runErrors, h.2.2]; simp [regInit]; omega, by
      rw [runErrors, h.2.1]; simp [regInit]⟩
  · intro e hall hlt hbad
    have h := foldl_retry_running errs regInit rfl hall (by simp [regInit]; omega)
    rw [runErrors, List.foldl_append]
    simp only [List.foldl_cons, List.foldl_nil, schedule_retry, h.1, hbad]
    rw [if_pos (by simp)]

/-- C5 witness: one adapter-not-ready failure leaves the controller
running with two registration calls issued and one failure counted. -/
theorem c5_witness :
    (runErrors [{ name := "org.bluez.Error.NotReady", msg := "" }]).status =
        RegStatus.running ∧
      (runErrors [{ name := "org.bluez.Error.NotReady", msg := "" }]).calls = 2 ∧
      (runErrors [{ name := "org.bluez.Error.NotReady", msg := "" }]).attempt = 1 :=
  (c5_registration_retry _).1 (by decide) (by decide)

/-- C8 counterexample: a Control Point write of the single byte 0x02 —
outside {Suspend = 0x00, ExitSuspend = 0x01} — succeeds (and records
suspended = false), contradicting "succeeds exactly when the payload is
0x00 or 0x01". -/
theorem c8_counterexample :
    (hcpWriteValue [0x02] hidInit).1 = none ∧
      (hcpWriteValue [0x02] hidInit).2.suspended = false := by
  decide

/-- `notify_key_report` neither reads nor writes the suspended flag. -/
lemma notify_key_report_suspend (s : HidState) (b : Bool) (r : List Nat) :
    notify_key_report { s with suspended := b } r =
      ((notify_key_report s r).1,
        { (notify_key_report s r).2.1 with suspended := b },
        (notify_key_report s r).2.2) := by
  rw [notify_key_report_unfold, notify_key_report_unfold]
  obtain ⟨mode, mv, sus, inp, boot⟩ := s
  by_cases h1 : mode = 0x00 <;>
    by_cases h2 : boot.notifying <;>
      by_cases h3 : inp.notifying <;>
        simp [h1, h2, h3]

/-- `send_next_character` neither reads nor writes the suspended flag. -/
lemma send_next_character_suspend (q : List Char) (s : HidState) (b : Bool)
    (ns : NotifyState) :
    send_next_character q { s with suspended := b } ns =
      { progressed := (send_next_character q s ns).progressed
        queue := (send_next_character q s ns).queue
        hid := { (send_next_character q s ns).hid with suspended := b }
        emitted := (send_next_character q s ns).emitted } := by
  cases q with
  | nil => rfl
  | cons ch rest =>
    by_cases hev : ns.event = false
    · simp [send_next_character, hev]
    · by_cases hk : (map_char ch).1 = 0
      · simp [send_next_character, hev, hk]
      · have h1 := notify_key_report_suspend s b
          (build_kbd_report (map_char ch).2 (map_char ch).1)
        by_cases hok : (notify_key_report s
            (build_kbd_report (map_char ch).2 (map_char ch).1)).1 = false
        · simp [send_next_character, hev, hk, h1, hok]
        · have h2 := notify_key_report_suspend
            (notify_key_report s
              (build_kbd_report (map_char ch).2 (map_char ch).1)).2.1
            b (build_kbd_report 0 0)
          simp [send_next_character, hev, hk, h1, hok, h2]

/-- Queue draining is unaffected by the suspended flag: the drained queue
and the emitted reports are identical, and the flag is carried through
unchanged. -/
lemma drain_queue_suspend (fuel : Nat) (q : List Char) (s : HidState)
    (b : Bool) (ns : NotifyState) :
    drain_queue fuel q { s with suspended := b } ns =
      ((drain_queue fuel q s ns).1,
        { (drain_queue fuel q s ns).2.1 with suspended := b },
        (drain_queue fuel q s ns).2.2) := by
  induction fuel generalizing q s with
  | zero => rfl
  | succ n ih =>
    cases q with
    | nil => rfl
    | cons ch rest =>
      have hsend := send_next_character_suspend (ch :: rest) s b ns
      by_cases hp : (send_next_character (ch :: rest) s ns).progressed
      · simp [drain_queue, hsend, hp, ih]
      · simp [drain_queue, hsend, hp]

/-- C8 amended: a HID Control Point write succeeds exactly when the
payload has length 1 — the byte's value is not validated; the accepted
byte is recorded only as the boolean suspended state (true iff 0x00); a
failed write changes nothing; and the suspended state never alters queue
draining. -/
theorem c8_amended_control_point (v : List Nat) (s : HidState) :
    ((hcpWriteValue v s).1 = none ↔ v.length = 1) ∧
      (∀ b, v = [b] →
        (hcpWriteValue v s).2 = { s with suspended := decide (b = 0x00) }) ∧
      ((hcpWriteValue v s).1 ≠ none → (hcpWriteValue v s).2 = s) ∧
      (∀ bsus fuel q ns,
        drain_queue fuel q { s with suspended := bsus } ns =
          ((drain_queue fuel q s ns).1,
            { (drain_queue fuel q s ns).2.1 with suspended := bsus },
            (drain_queue fuel q s ns).2.2)) := by
  refine ⟨?_, ?_, ?_, fun bsus fuel q ns => drain_queue_suspend fuel q s bsus ns⟩
  · match v with
    | [] => simp [hcpWriteValue]
    | [b] => simp [hcpWriteValue]
    | _ :: _ :: _ => simp [hcpWriteValue]
  · intro b hv
    subst hv
    simp [hcpWriteValue]
  · match v with
    | [] => simp [hcpWriteValue]
    | [b] => simp [hcpWriteValue]
    | _ :: _ :: _ => simp [hcpWriteValue]

/-- C8 witness: writing Suspend (0x00) records suspended = true, and
draining one queued 'a' proceeds identically with the flag set. -/
theorem c8_witness :
    (hcpWriteValue [0x00] hidInit).2 =
        { hidInit with suspended := decide ((0x00 : Nat) = 0x00) } ∧
      drain_queue 2 ['a'] { hidInit with suspended := true }
          { count := 1, event := true } =
        ((drain_queue 2 ['a'] hidInit { count := 1, event := true }).1,
          { (drain_queue 2 ['a'] hidInit { count := 1, event := true }).2.1 with
            suspended := true },
          (drain_queue 2 ['a'] hidInit { count := 1, event := true }).2.2) :=
  ⟨(c8_amended_control_point [0x00] hidInit).2.1 0x00 rfl,
    (c8_amended_control_point [0x00] hidInit).2.2.2 true 2 ['a']
      { count := 1, event := true }⟩

end BtHidBle
